import Mathlib

/-!
Shallow embedding of the chunked-transcription pipeline of
`src/lib/openai/transcribe.ts` (file `transcribeAudioFile`, `transcribeChunks`,
`transcribeAudio`, `getRetryDelay`, `RETRY_CONFIG`) together with the constant
`ROLLING_PROMPT_LENGTH` from `src/lib/openai/client.ts`.

The outbound OpenAI SDK call (`openai.audio.transcriptions.create`) is
abstracted as an oracle: for a given audio-file path, an optional prompt and
the zero-based attempt number within one `transcribeAudioFile` invocation, it
either returns the transcribed text or throws an error carrying an optional
HTTP status and an optional error code.
-/

namespace Transcribe

/-- An error thrown by the SDK call, as inspected by the retry logic:
`error?.status` (an optional HTTP status) and `error?.code` (an optional
connection error code such as `ECONNRESET`). -/
structure ApiError where
  status : Option Nat
  code : Option String
deriving Repr, DecidableEq

/-- An audio chunk descriptor (`AudioChunk` in `types/index.ts`):
a file path, a zero-based index and a duration. -/
structure AudioChunk where
  path : String
  index : Nat
  duration : Nat
deriving Repr, DecidableEq

/-- Default chunk descriptor, used only as the `getD` fallback in statements. -/
def defaultChunk : AudioChunk := { path := "", index := 0, duration := 0 }

/-- Outcome of one raw SDK call: transcribed text, or a thrown error. -/
abbrev ApiResult := Except ApiError String

/-- The environment: outcome of the raw SDK call, keyed by audio path,
prompt argument and attempt number. -/
abbrev Api := String → Option String → Nat → ApiResult

/-- `RETRY_CONFIG.maxRetries` from `transcribe.ts`. -/
def RETRY_CONFIG_maxRetries : Nat := 3

/-- `RETRY_CONFIG.initialDelayMs` from `transcribe.ts`. -/
def RETRY_CONFIG_initialDelayMs : Nat := 1000

/-- `RETRY_CONFIG.maxDelayMs` from `transcribe.ts`. -/
def RETRY_CONFIG_maxDelayMs : Nat := 10000

/-- `ROLLING_PROMPT_LENGTH` from `client.ts`. -/
def ROLLING_PROMPT_LENGTH : Nat := 1500

/-- `getRetryDelay(attempt)`: exponential backoff capped at `maxDelayMs`. -/
def getRetryDelay (attempt : Nat) : Nat :=
  min (RETRY_CONFIG_initialDelayMs * 2 ^ attempt) RETRY_CONFIG_maxDelayMs

/-- The rate-limit test `error?.status === 429` (line 68 of `transcribe.ts`). -/
def isRateLimit (e : ApiError) : Bool :=
  e.status == some 429

/-- The transient-error test of lines 76-79 of `transcribe.ts`:
`error?.status >= 500 || error?.code === 'ECONNRESET' || error?.code === 'ETIMEDOUT'`.
In JavaScript, `undefined >= 500` is false, so a missing status never counts. -/
def isRetriable (e : ApiError) : Bool :=
  (match e.status with
   | some s => decide (500 ≤ s)
   | none => false)
  || e.code == some "ECONNRESET" || e.code == some "ETIMEDOUT"

/-- The `for (let attempt = 0; attempt < maxRetries; attempt++)` loop of
`transcribeAudioFile`, lines 51-91.  `fuel` is the number of remaining loop
iterations (`RETRY_CONFIG_maxRetries - attempt` at the entry point).  On
success the text is returned; on an error the loop continues (after a backoff
sleep, which has no effect on the value computed) exactly when the error is a
rate-limit or retriable signal and `attempt < maxRetries - 1`; otherwise the
error is rethrown.  The `fuel = 0` case models the unreachable fall-through
after the loop (lines 93-94), which throws a generic error. -/
def retryLoop (call : Nat → ApiResult) : Nat → Nat → ApiResult
  | _, 0 => .error { status := none, code := none }
  | attempt, fuel + 1 =>
    match call attempt with
    | .ok transcription => .ok transcription
    | .error e =>
      if isRateLimit e && decide (attempt < RETRY_CONFIG_maxRetries - 1) then
        retryLoop call (attempt + 1) fuel
      else if isRetriable e && decide (attempt < RETRY_CONFIG_maxRetries - 1) then
        retryLoop call (attempt + 1) fuel
      else
        .error e

/-- `transcribeAudioFile(audioPath, options)`: the retry wrapper around one
SDK call, starting at attempt 0 with `maxRetries` iterations available.  The
`prompt` argument is the `options.prompt` field (`none` models `undefined`). -/
def transcribeAudioFile (api : Api) (audioPath : String) (prompt : Option String) :
    ApiResult :=
  retryLoop (fun attempt => api audioPath prompt attempt) 0 RETRY_CONFIG_maxRetries

/-- The prompt argument actually sent with a chunk request:
`prompt: rollingPrompt || undefined` (line 130 of `transcribe.ts`) — the empty
string is falsy in JavaScript, so an empty rolling prompt is omitted. -/
def promptOf (rollingPrompt : String) : Option String :=
  if rollingPrompt = "" then none else some rollingPrompt

/-- Lines 136-141 of `transcribe.ts`: the rolling prompt for the next chunk is
the last `ROLLING_PROMPT_LENGTH` characters of the transcript just produced
(`transcript.slice(-ROLLING_PROMPT_LENGTH)`), or the whole transcript if it is
not longer than that. -/
def nextRollingPrompt (transcript : String) : String :=
  if transcript.length > ROLLING_PROMPT_LENGTH then
    transcript.drop (transcript.length - ROLLING_PROMPT_LENGTH)
  else
    transcript

/-- The `for (let i = 0; ...)` loop of `transcribeChunks`, lines 121-147,
written as recursion over the remaining chunk list with the current rolling
prompt as loop state.  It returns the list of prompt arguments passed to the
chunk requests that were actually issued (the request trace), paired with
either the ordered list of per-chunk transcripts or the first propagated
error.  A failing chunk ends the loop: no later chunk contributes a request. -/
def transcribeChunksGo (api : Api) :
    List AudioChunk → String → List (Option String) × Except ApiError (List String)
  | [], _ => ([], .ok [])
  | chunk :: rest, rollingPrompt =>
    match transcribeAudioFile api chunk.path (promptOf rollingPrompt) with
    | .error e => ([promptOf rollingPrompt], .error e)
    | .ok transcript =>
      let res := transcribeChunksGo api rest (nextRollingPrompt transcript)
      (promptOf rollingPrompt :: res.1, res.2.map (fun ts => transcript :: ts))

/-- Result record of `transcribeChunks` / `transcribeAudio`. -/
structure TranscriptionOutcome where
  transcript : String
  chunksProcessed : Nat
deriving Repr, DecidableEq

/-- `transcribeChunks(chunks, options)`, lines 100-156: run the loop, then
join all transcripts with `'\n\n'` and report `chunksProcessed = chunks.length`.
`initialPrompt` is the `options.initialPrompt` field after its `= ''` default. -/
def transcribeChunks (api : Api) (chunks : List AudioChunk) (initialPrompt : String) :
    Except ApiError TranscriptionOutcome :=
  match (transcribeChunksGo api chunks initialPrompt).2 with
  | .error e => .error e
  | .ok transcripts =>
    .ok { transcript := String.intercalate "\n\n" transcripts
          chunksProcessed := chunks.length }

/-- The trace of prompt arguments passed with successive chunk requests. -/
def chunkPrompts (api : Api) (chunks : List AudioChunk) (initialPrompt : String) :
    List (Option String) :=
  (transcribeChunksGo api chunks initialPrompt).1

/-- `transcribeAudio(audioPath, chunks, options)`, lines 161-183: when
`!chunks || chunks.length === 0`, a single `transcribeAudioFile` call on the
whole file with the caller's `options.prompt`, reported with
`chunksProcessed: 1`; otherwise `transcribeChunks(chunks, options)`.  Note
that `options` carries a `prompt` field but no `initialPrompt` field, so the
chunked path runs with `initialPrompt` defaulted to the empty string. -/
def transcribeAudio (api : Api) (audioPath : String)
    (chunks : Option (List AudioChunk)) (prompt : Option String) :
    Except ApiError TranscriptionOutcome :=
  if (chunks.getD []).isEmpty then
    match transcribeAudioFile api audioPath prompt with
    | .error e => .error e
    | .ok transcript => .ok { transcript := transcript, chunksProcessed := 1 }
  else
    transcribeChunks api (chunks.getD []) ""

/-- `countWords(text)` from `transcribe.ts` (not needed by the claims, kept
for completeness of the embedded module surface): number of nonempty
whitespace-separated words. -/
def countWords (text : String) : Nat :=
  ((text.trim.split Char.isWhitespace).filter (fun w => w.length > 0)).length

/-! ### Helper lemmas about the retry loop -/

lemma retryLoop_succ (call : Nat → ApiResult) (attempt fuel : Nat) :
    retryLoop call attempt (fuel + 1) =
      match call attempt with
      | .ok transcription => .ok transcription
      | .error e =>
        if isRateLimit e && decide (attempt < RETRY_CONFIG_maxRetries - 1) then
          retryLoop call (attempt + 1) fuel
        else if isRetriable e && decide (attempt < RETRY_CONFIG_maxRetries - 1) then
          retryLoop call (attempt + 1) fuel
        else
          .error e := rfl

lemma retryLoop_ok (fuel : Nat) {call : Nat → ApiResult} {attempt : Nat} {t : String}
    (h : call attempt = .ok t) :
    retryLoop call attempt (fuel + 1) = .ok t := by
  rw [retryLoop_succ, h]

lemma retryLoop_retry (fuel : Nat) {call : Nat → ApiResult} {attempt : Nat} {e : ApiError}
    (h : call attempt = .error e)
    (hr : (isRateLimit e || isRetriable e) = true)
    (hlt : attempt < RETRY_CONFIG_maxRetries - 1) :
    retryLoop call attempt (fuel + 1) = retryLoop call (attempt + 1) fuel := by
  rw [retryLoop_succ, h]
  rcases Bool.or_eq_true_iff.mp hr with h1 | h2
  · simp [h1, hlt]
  · by_cases h1 : isRateLimit e = true
    · simp [h1, hlt]
    · simp only [Bool.not_eq_true] at h1
      simp [h1, h2, hlt]

lemma retryLoop_stop (fuel : Nat) {call : Nat → ApiResult} {attempt : Nat} {e : ApiError}
    (h : call attempt = .error e)
    (hs : (isRateLimit e || isRetriable e) = false ∨ RETRY_CONFIG_maxRetries - 1 ≤ attempt) :
    retryLoop call attempt (fuel + 1) = .error e := by
  rw [retryLoop_succ, h]
  rcases hs with hs | hs
  · rcases Bool.or_eq_false_iff.mp hs with ⟨h1, h2⟩
    simp [h1, h2]
  · have hnlt : ¬ attempt < RETRY_CONFIG_maxRetries - 1 := Nat.not_lt.mpr hs
    simp [hnlt]

end Transcribe

namespace Transcribe

/-- C6: the backoff delay computed before the retry transition at attempt `n`
equals `min(initialDelay * 2 ^ n, maxDelay)` milliseconds with
`initialDelay = 1000` and `maxDelay = 10000`; in particular the delays before
the second and the third attempt are 1000 ms and 2000 ms. -/
theorem getRetryDelay_backoff_formula :
    (∀ n : Nat, getRetryDelay n = min (1000 * 2 ^ n) 10000) ∧
    getRetryDelay 0 = 1000 ∧ getRetryDelay 1 = 2000 :=
  ⟨fun _ => rfl, by decide, by decide⟩

/-- C4: in `transcribeAudioFile`, a failure with a rate-limit signal
(status 429) or a transient signal (status at least 500, `ECONNRESET` or
`ETIMEDOUT`) moves the loop to the next attempt whenever
`attempt + 1 < maxRetries = 3`; every failure with any other signal is thrown
immediately on the attempt where it occurs, with zero further attempts; a
retriable failure on the last attempt is also thrown.  The last conjunct
records that `transcribeAudioFile` is exactly this loop entered at attempt 0
with 3 available iterations. -/
theorem transcribeAudioFile_retry_policy (api : Api) (path : String) (p : Option String)
    (attempt : Nat) (e : ApiError)
    (hcall : api path p attempt = .error e)
    (hlt : attempt < RETRY_CONFIG_maxRetries) :
    ((isRateLimit e || isRetriable e) = true → attempt + 1 < RETRY_CONFIG_maxRetries →
        retryLoop (fun n => api path p n) attempt (RETRY_CONFIG_maxRetries - attempt) =
          retryLoop (fun n => api path p n) (attempt + 1)
            (RETRY_CONFIG_maxRetries - (attempt + 1))) ∧
    ((isRateLimit e || isRetriable e) = false →
        retryLoop (fun n => api path p n) attempt (RETRY_CONFIG_maxRetries - attempt) =
          .error e) ∧
    ((isRateLimit e || isRetriable e) = true → RETRY_CONFIG_maxRetries ≤ attempt + 1 →
        retryLoop (fun n => api path p n) attempt (RETRY_CONFIG_maxRetries - attempt) =
          .error e) ∧
    transcribeAudioFile api path p =
      retryLoop (fun n => api path p n) 0 RETRY_CONFIG_maxRetries := by
  have hmr : RETRY_CONFIG_maxRetries = 3 := rfl
  have hfuel : RETRY_CONFIG_maxRetries - attempt =
      (RETRY_CONFIG_maxRetries - (attempt + 1)) + 1 := by omega
  refine ⟨?_, ?_, ?_, rfl⟩
  · intro hr h2
    rw [hfuel]
    exact retryLoop_retry _ hcall hr (by omega)
  · intro hr
    rw [hfuel]
    exact retryLoop_stop _ hcall (Or.inl hr)
  · intro hr h2
    rw [hfuel]
    exact retryLoop_stop _ hcall (Or.inr (by omega))

/-- Witness for C4: a 400-status failure on attempt 0 is thrown at once. -/
theorem transcribeAudioFile_retry_policy_witness :
    ((fun _ _ _ => (.error { status := some 400, code := none } : ApiResult)) : Api)
        "a.mp3" none 0 = .error { status := some 400, code := none } ∧
    (0 : Nat) < RETRY_CONFIG_maxRetries ∧
    (isRateLimit { status := some 400, code := none } ||
      isRetriable { status := some 400, code := none }) = false ∧
    retryLoop (fun n =>
        ((fun _ _ _ => (.error { status := some 400, code := none } : ApiResult)) : Api)
          "a.mp3" none n) 0 (RETRY_CONFIG_maxRetries - 0) =
      .error { status := some 400, code := none } :=
  ⟨rfl, by decide, by decide,
    (transcribeAudioFile_retry_policy
        (fun _ _ _ => .error { status := some 400, code := none }) "a.mp3" none 0
        { status := some 400, code := none } rfl (by decide)).2.1 (by decide)⟩

/-- C8: if the underlying call fails with status 429 on attempts 0 and 1 and
succeeds with output `t` on attempt 2, `transcribeAudioFile` returns `.ok t`,
exactly the result of an invocation whose underlying call succeeds at once. -/
theorem transcribeAudioFile_retry_success_equiv (api api2 : Api)
    (path path2 : String) (p p2 : Option String) (e0 e1 : ApiError) (t : String)
    (h0 : api path p 0 = .error e0) (h0s : e0.status = some 429)
    (h1 : api path p 1 = .error e1) (h1s : e1.status = some 429)
    (h2 : api path p 2 = .ok t)
    (h2im : api2 path2 p2 0 = .ok t) :
    transcribeAudioFile api path p = .ok t ∧
    transcribeAudioFile api path p = transcribeAudioFile api2 path2 p2 := by
  have hr0 : (isRateLimit e0 || isRetriable e0) = true := by
    simp [isRateLimit, h0s]
  have hr1 : (isRateLimit e1 || isRetriable e1) = true := by
    simp [isRateLimit, h1s]
  have hmain : transcribeAudioFile api path p = .ok t := by
    show retryLoop (fun n => api path p n) 0 3 = .ok t
    calc retryLoop (fun n => api path p n) 0 3
        = retryLoop (fun n => api path p n) 1 2 :=
          retryLoop_retry 2 h0 hr0 (by decide)
      _ = retryLoop (fun n => api path p n) 2 1 :=
          retryLoop_retry 1 h1 hr1 (by decide)
      _ = .ok t := retryLoop_ok 0 h2
  have himm : transcribeAudioFile api2 path2 p2 = .ok t := by
    show retryLoop (fun n => api2 path2 p2 n) 0 3 = .ok t
    exact retryLoop_ok 2 h2im
  exact ⟨hmain, hmain.trans himm.symm⟩

/-- Witness for C8: two 429 failures then success with "done" gives the same
result as an immediate success with "done". -/
theorem transcribeAudioFile_retry_success_equiv_witness :
    transcribeAudioFile
        (fun _ _ n => if n < 2 then .error { status := some 429, code := none }
                      else .ok "done") "a.mp3" none = .ok "done" ∧
    transcribeAudioFile
        (fun _ _ n => if n < 2 then .error { status := some 429, code := none }
                      else .ok "done") "a.mp3" none =
      transcribeAudioFile (fun _ _ _ => .ok "done") "b.mp3" (some "hint") :=
  transcribeAudioFile_retry_success_equiv
    (fun _ _ n => if n < 2 then .error { status := some 429, code := none } else .ok "done")
    (fun _ _ _ => .ok "done") "a.mp3" "b.mp3" none (some "hint")
    { status := some 429, code := none } { status := some 429, code := none } "done"
    rfl rfl rfl rfl rfl rfl

/-! ### Helper lemmas about the chunk loop -/

lemma transcribeChunksGo_cons_ok {api : Api} {chunk : AudioChunk} {rest : List AudioChunk}
    {rp t : String}
    (h : transcribeAudioFile api chunk.path (promptOf rp) = .ok t) :
    transcribeChunksGo api (chunk :: rest) rp =
      (promptOf rp :: (transcribeChunksGo api rest (nextRollingPrompt t)).1,
       (transcribeChunksGo api rest (nextRollingPrompt t)).2.map
         (fun ts => t :: ts)) := by
  conv_lhs => rw [transcribeChunksGo]
  rw [h]

lemma transcribeChunksGo_cons_error {api : Api} {chunk : AudioChunk} {rest : List AudioChunk}
    {rp : String} {e : ApiError}
    (h : transcribeAudioFile api chunk.path (promptOf rp) = .error e) :
    transcribeChunksGo api (chunk :: rest) rp = ([promptOf rp], .error e) := by
  conv_lhs => rw [transcribeChunksGo]
  rw [h]

lemma transcribeChunksGo_all_ok (api : Api) :
    ∀ (chunks : List AudioChunk) (out : Nat → String) (rp : String),
      (∀ j, j < chunks.length → ∀ p,
          transcribeAudioFile api (chunks.getD j defaultChunk).path p = .ok (out j)) →
      (transcribeChunksGo api chunks rp).2 =
        .ok ((List.range chunks.length).map out)
  | [], _, _, _ => rfl
  | chunk :: rest, out, rp, h => by
    have h0 : transcribeAudioFile api chunk.path (promptOf rp) = .ok (out 0) := by
      simpa using h 0 (Nat.succ_pos _) (promptOf rp)
    have ih := transcribeChunksGo_all_ok api rest (fun j => out (j + 1))
      (nextRollingPrompt (out 0))
      (by
        intro j hj p
        simpa using h (j + 1) (Nat.succ_lt_succ hj) p)
    rw [transcribeChunksGo_cons_ok h0]
    simp [ih, Except.map, List.range_succ_eq_map, List.map_map, Function.comp,
      Nat.succ_eq_add_one]

/-- C1: for every non-empty chunk list in which every per-chunk retry-wrapped
transcription call succeeds (chunk `j` yielding `out j`), `transcribeChunks`
returns the outputs joined in chunk-index order with the two-character
separator between consecutive outputs, and `chunksProcessed` equal to the
number of chunks. -/
theorem transcribeChunks_all_ok (api : Api) (chunks : List AudioChunk) (out : Nat → String)
    (initialPrompt : String) (_hne : chunks ≠ [])
    (h : ∀ j, j < chunks.length → ∀ p,
        transcribeAudioFile api (chunks.getD j defaultChunk).path p = .ok (out j)) :
    transcribeChunks api chunks initialPrompt =
      .ok { transcript := String.intercalate "\n\n" ((List.range chunks.length).map out)
            chunksProcessed := chunks.length } := by
  unfold transcribeChunks
  rw [transcribeChunksGo_all_ok api chunks out initialPrompt h]

/-- Witness for C1: two chunks whose calls return "alpha" and "beta" give the
transcript "alpha\n\nbeta" and a processed count of 2. -/
theorem transcribeChunks_all_ok_witness :
    ([({ path := "a", index := 0, duration := 10 } : AudioChunk),
      { path := "b", index := 1, duration := 10 }] ≠ ([] : List AudioChunk)) ∧
    transcribeChunks
        ((fun path _ _ => .ok (if path = "a" then "alpha" else "beta")) : Api)
        [{ path := "a", index := 0, duration := 10 },
         { path := "b", index := 1, duration := 10 }] "" =
      .ok { transcript := "alpha\n\nbeta", chunksProcessed := 2 } := by
  constructor
  · simp
  · have h := transcribeChunks_all_ok
      ((fun path _ _ => .ok (if path = "a" then "alpha" else "beta")) : Api)
      [{ path := "a", index := 0, duration := 10 },
       { path := "b", index := 1, duration := 10 }]
      (fun j => if j = 0 then "alpha" else "beta") "" (by simp)
      (by
        intro j hj p
        simp only [List.length_cons, List.length_nil] at hj
        interval_cases j <;> rfl)
    rw [h]
    rfl

lemma string_length_drop (s : String) (n : Nat) : (s.drop n).length = s.length - n := by
  rw [String.drop_eq]
  simp only [String.length]
  rw [List.length_drop]

lemma string_ne_empty_of_length_pos {s : String} (h : 0 < s.length) : s ≠ "" := by
  intro hcontra
  rw [hcontra] at h
  exact absurd h (by decide)

lemma transcribeChunksGo_prompt_at (api : Api) :
    ∀ (chunks : List AudioChunk) (out : Nat → String) (rp : String) (i : Nat),
      i < chunks.length →
      (∀ j, j < i → ∀ p,
          transcribeAudioFile api (chunks.getD j defaultChunk).path p = .ok (out j)) →
      (transcribeChunksGo api chunks rp).1[i]? =
        some (if i = 0 then promptOf rp else promptOf (nextRollingPrompt (out (i - 1))))
  | [], _, _, i, hi, _ => absurd hi (by simp)
  | chunk :: rest, out, rp, 0, _, _ => by
    cases htr : transcribeAudioFile api chunk.path (promptOf rp) with
    | error e => rw [transcribeChunksGo_cons_error htr]; simp
    | ok t => rw [transcribeChunksGo_cons_ok htr]; simp
  | chunk :: rest, out, rp, i + 1, hi, hprev => by
    have h0 : transcribeAudioFile api chunk.path (promptOf rp) = .ok (out 0) := by
      simpa using hprev 0 (Nat.succ_pos _) (promptOf rp)
    have ih := transcribeChunksGo_prompt_at api rest (fun j => out (j + 1))
      (nextRollingPrompt (out 0)) i (by simpa using hi)
      (by
        intro j hj p
        simpa using hprev (j + 1) (Nat.succ_lt_succ hj) p)
    rw [transcribeChunksGo_cons_ok h0]
    simp only [List.getElem?_cons_succ]
    rw [ih]
    cases i with
    | zero => simp
    | succ k => simp

/-- C2: when the chunks before chunk `i` succeed with outputs `out`, the
prompt passed with chunk `i`'s request is: for `i = 0`, the caller-supplied
initial hint (omitted when empty); for `i ≥ 1`, the last
`ROLLING_PROMPT_LENGTH` characters of chunk `i - 1`'s output — the full
output verbatim when its length is at most `ROLLING_PROMPT_LENGTH`, and
omitted entirely when that text is empty. -/
theorem chunkPrompts_rolling (api : Api) (chunks : List AudioChunk) (out : Nat → String)
    (initialPrompt : String) (i : Nat) (hi : i < chunks.length)
    (hprev : ∀ j, j < i → ∀ p,
        transcribeAudioFile api (chunks.getD j defaultChunk).path p = .ok (out j)) :
    (chunkPrompts api chunks initialPrompt)[i]? =
      some (if i = 0 then
              (if initialPrompt = "" then none else some initialPrompt)
            else if (out (i - 1)).length ≤ ROLLING_PROMPT_LENGTH then
              (if out (i - 1) = "" then none else some (out (i - 1)))
            else
              some ((out (i - 1)).drop ((out (i - 1)).length - ROLLING_PROMPT_LENGTH))) := by
  have hmain := transcribeChunksGo_prompt_at api chunks out initialPrompt i hi hprev
  unfold chunkPrompts
  rw [hmain]
  rcases i with _ | k
  · rfl
  · simp only [Nat.succ_ne_zero, if_false]
    set s := out (k + 1 - 1) with hs
    by_cases hlen : s.length ≤ ROLLING_PROMPT_LENGTH
    · have hnp : nextRollingPrompt s = s := by
        unfold nextRollingPrompt
        rw [if_neg (by omega)]
      rw [if_pos hlen, hnp]
      rfl
    · have hgt : s.length > ROLLING_PROMPT_LENGTH := by omega
      have hnp : nextRollingPrompt s = s.drop (s.length - ROLLING_PROMPT_LENGTH) := by
        unfold nextRollingPrompt
        rw [if_pos hgt]
      have hlendrop : (s.drop (s.length - ROLLING_PROMPT_LENGTH)).length =
          ROLLING_PROMPT_LENGTH := by
        rw [string_length_drop]
        omega
      have hne : s.drop (s.length - ROLLING_PROMPT_LENGTH) ≠ "" :=
        string_ne_empty_of_length_pos (by rw [hlendrop]; decide)
      rw [if_neg hlen, hnp]
      unfold promptOf
      rw [if_neg hne]

/-- Witness for C2: with a first chunk transcribed as "alpha", the prompt
passed with the second chunk's request is "alpha". -/
theorem chunkPrompts_rolling_witness :
    (1 : Nat) < ([({ path := "a", index := 0, duration := 10 } : AudioChunk),
      { path := "b", index := 1, duration := 10 }] : List AudioChunk).length ∧
    (chunkPrompts ((fun path _ _ => .ok (if path = "a" then "alpha" else "beta")) : Api)
        [{ path := "a", index := 0, duration := 10 },
         { path := "b", index := 1, duration := 10 }] "")[1]? =
      some (some "alpha") := by
  refine ⟨by simp, ?_⟩
  have h := chunkPrompts_rolling
    ((fun path _ _ => .ok (if path = "a" then "alpha" else "beta")) : Api)
    [{ path := "a", index := 0, duration := 10 },
     { path := "b", index := 1, duration := 10 }]
    (fun j => if j = 0 then "alpha" else "beta") "" 1 (by simp)
    (by
      intro j hj p
      interval_cases j
      rfl)
  rw [h]
  rfl

lemma transcribeChunksGo_fail (api : Api) (e : ApiError) :
    ∀ (chunks : List AudioChunk) (out : Nat → String) (rp : String) (i : Nat),
      i < chunks.length →
      (∀ j, j < i → ∀ p,
          transcribeAudioFile api (chunks.getD j defaultChunk).path p = .ok (out j)) →
      (∀ p, transcribeAudioFile api (chunks.getD i defaultChunk).path p = .error e) →
      (transcribeChunksGo api chunks rp).2 = .error e ∧
      (transcribeChunksGo api chunks rp).1.length = i + 1
  | [], _, _, i, hi, _, _ => absurd hi (by simp)
  | chunk :: rest, out, rp, 0, _, _, hfail => by
    have h0 : transcribeAudioFile api chunk.path (promptOf rp) = .error e := by
      simpa using hfail (promptOf rp)
    rw [transcribeChunksGo_cons_error h0]
    exact ⟨rfl, rfl⟩
  | chunk :: rest, out, rp, i + 1, hi, hprev, hfail => by
    have h0 : transcribeAudioFile api chunk.path (promptOf rp) = .ok (out 0) := by
      simpa using hprev 0 (Nat.succ_pos _) (promptOf rp)
    have ih := transcribeChunksGo_fail api e rest (fun j => out (j + 1))
      (nextRollingPrompt (out 0)) i (by simpa using hi)
      (by
        intro j hj p
        simpa using hprev (j + 1) (Nat.succ_lt_succ hj) p)
      (by
        intro p
        simpa using hfail p)
    rw [transcribeChunksGo_cons_ok h0]
    refine ⟨?_, ?_⟩
    · simp [ih.1, Except.map]
    · simp [ih.2]

/-- C3: if every chunk before `i` succeeds and chunk `i`'s retry-wrapped call
fails with the classified error `e`, the whole `transcribeChunks` invocation
propagates exactly `e` — no partial transcript, no replacement of the error —
and requests are issued only for chunks `0..i` (the request trace has length
`i + 1`), so no chunk after `i` is attempted. -/
theorem transcribeChunks_error_propagation (api : Api) (chunks : List AudioChunk)
    (out : Nat → String) (initialPrompt : String) (e : ApiError) (i : Nat)
    (hi : i < chunks.length)
    (hprev : ∀ j, j < i → ∀ p,
        transcribeAudioFile api (chunks.getD j defaultChunk).path p = .ok (out j))
    (hfail : ∀ p, transcribeAudioFile api (chunks.getD i defaultChunk).path p = .error e) :
    transcribeChunks api chunks initialPrompt = .error e ∧
    (chunkPrompts api chunks initialPrompt).length = i + 1 := by
  obtain ⟨h2, h1⟩ := transcribeChunksGo_fail api e chunks out initialPrompt i hi hprev hfail
  constructor
  · unfold transcribeChunks
    rw [h2]
  · exact h1

/-- Witness for C3: chunk 0 succeeds, chunk 1 fails with a 400-status error;
the pipeline returns that error and only two requests go out. -/
theorem transcribeChunks_error_propagation_witness :
    transcribeChunks
        ((fun path _ _ => if path = "a" then .ok "alpha"
                          else .error { status := some 400, code := none }) : Api)
        [{ path := "a", index := 0, duration := 5 },
         { path := "b", index := 1, duration := 5 },
         { path := "c", index := 2, duration := 5 }] "" =
      .error { status := some 400, code := none } ∧
    (chunkPrompts
        ((fun path _ _ => if path = "a" then .ok "alpha"
                          else .error { status := some 400, code := none }) : Api)
        [{ path := "a", index := 0, duration := 5 },
         { path := "b", index := 1, duration := 5 },
         { path := "c", index := 2, duration := 5 }] "").length = 2 := by
  have h := transcribeChunks_error_propagation
    ((fun path _ _ => if path = "a" then .ok "alpha"
                      else .error { status := some 400, code := none }) : Api)
    [{ path := "a", index := 0, duration := 5 },
     { path := "b", index := 1, duration := 5 },
     { path := "c", index := 2, duration := 5 }]
    (fun _ => "alpha") "" { status := some 400, code := none } 1 (by simp)
    (by
      intro j hj p
      interval_cases j
      rfl)
    (fun p => rfl)
  exact h

/-- C7: if the raw call for `path` fails with a 429-status error on each of
the 3 attempts, every `transcribeAudioFile` call on `path` surfaces the last
of those errors, which still carries the rate-limit status 429; a pipeline
whose chunk `i` has that path (all earlier chunks succeeding) aborts with
that same error after issuing requests only for chunks `0..i`. -/
theorem transcribeChunks_rateLimit_exhaustion (api : Api) (path : String) (e : Nat → ApiError)
    (chunks : List AudioChunk) (out : Nat → String) (initialPrompt : String) (i : Nat)
    (hfail : ∀ p n, n < RETRY_CONFIG_maxRetries → api path p n = .error (e n))
    (hstatus : ∀ n, n < RETRY_CONFIG_maxRetries → (e n).status = some 429)
    (hi : i < chunks.length) (hpath : (chunks.getD i defaultChunk).path = path)
    (hprev : ∀ j, j < i → ∀ p,
        transcribeAudioFile api (chunks.getD j defaultChunk).path p = .ok (out j)) :
    (∀ p, transcribeAudioFile api path p = .error (e 2)) ∧
    (e 2).status = some 429 ∧
    transcribeChunks api chunks initialPrompt = .error (e 2) ∧
    (chunkPrompts api chunks initialPrompt).length = i + 1 := by
  have hfile : ∀ p, transcribeAudioFile api path p = .error (e 2) := by
    intro p
    show retryLoop (fun n => api path p n) 0 3 = .error (e 2)
    calc retryLoop (fun n => api path p n) 0 3
        = retryLoop (fun n => api path p n) 1 2 :=
          retryLoop_retry 2 (hfail p 0 (by decide))
            (by simp [isRateLimit, hstatus 0 (by decide)]) (by decide)
      _ = retryLoop (fun n => api path p n) 2 1 :=
          retryLoop_retry 1 (hfail p 1 (by decide))
            (by simp [isRateLimit, hstatus 1 (by decide)]) (by decide)
      _ = .error (e 2) :=
          retryLoop_stop 0 (hfail p 2 (by decide)) (Or.inr (by decide))
  have hfail2 : ∀ p,
      transcribeAudioFile api (chunks.getD i defaultChunk).path p = .error (e 2) := by
    intro p
    rw [hpath]
    exact hfile p
  obtain ⟨h2, h1⟩ :=
    transcribeChunksGo_fail api (e 2) chunks out initialPrompt i hi hprev hfail2
  refine ⟨hfile, hstatus 2 (by decide), ?_, h1⟩
  unfold transcribeChunks
  rw [h2]

/-- Witness for C7: a call that always fails with status 429 exhausts its
retries; a one-chunk pipeline on it aborts with that error after one chunk. -/
theorem transcribeChunks_rateLimit_exhaustion_witness :
    transcribeAudioFile ((fun _ _ _ => .error { status := some 429, code := none }) : Api)
        "a" none = .error { status := some 429, code := none } ∧
    transcribeChunks ((fun _ _ _ => .error { status := some 429, code := none }) : Api)
        [{ path := "a", index := 0, duration := 5 }] "" =
      .error { status := some 429, code := none } ∧
    (chunkPrompts ((fun _ _ _ => .error { status := some 429, code := none }) : Api)
        [{ path := "a", index := 0, duration := 5 }] "").length = 1 := by
  have h := transcribeChunks_rateLimit_exhaustion
    ((fun _ _ _ => .error { status := some 429, code := none }) : Api) "a"
    (fun _ => { status := some 429, code := none })
    [{ path := "a", index := 0, duration := 5 }] (fun _ => "") "" 0
    (fun _ _ _ => rfl) (fun _ _ => rfl) (by simp) rfl
    (by
      intro j hj p
      exact absurd hj (Nat.not_lt_zero j))
  exact ⟨h.1 none, h.2.2.1, h.2.2.2⟩

/-- C5: with no chunk list supplied, `transcribeAudio` returns the output of
the single retry-wrapped call on the whole audio file together with a
processed count of 1. -/
theorem transcribeAudio_noChunks (api : Api) (audioPath : String) (prompt : Option String)
    (t : String) (h : transcribeAudioFile api audioPath prompt = .ok t) :
    transcribeAudio api audioPath none prompt =
      .ok { transcript := t, chunksProcessed := 1 } := by
  simp [transcribeAudio, h]

/-- Witness for C5: a call that returns "hello" gives transcript "hello" and
a processed count of 1. -/
theorem transcribeAudio_noChunks_witness :
    transcribeAudioFile ((fun _ _ _ => .ok "hello") : Api) "f.mp3" none = .ok "hello" ∧
    transcribeAudio ((fun _ _ _ => .ok "hello") : Api) "f.mp3" none none =
      .ok { transcript := "hello", chunksProcessed := 1 } :=
  ⟨rfl, transcribeAudio_noChunks ((fun _ _ _ => .ok "hello") : Api) "f.mp3" none "hello" rfl⟩

/-- C10: a supplied-but-empty chunk list behaves identically to the
no-chunk-list path: the very same result, and on success `chunksProcessed`
equals 1 (not 0 with an empty transcript). -/
theorem transcribeAudio_emptyChunkList (api : Api) (audioPath : String)
    (prompt : Option String) :
    transcribeAudio api audioPath (some []) prompt =
      transcribeAudio api audioPath none prompt ∧
    (∀ t, transcribeAudioFile api audioPath prompt = .ok t →
        transcribeAudio api audioPath (some []) prompt =
          .ok { transcript := t, chunksProcessed := 1 }) := by
  refine ⟨rfl, ?_⟩
  intro t h
  simp [transcribeAudio, h]

/-- Witness for C10: for a call returning "hi", the empty-chunk-list path
equals the no-chunk-list path and reports one chunk processed. -/
theorem transcribeAudio_emptyChunkList_witness :
    transcribeAudio ((fun _ _ _ => .ok "hi") : Api) "f.mp3" (some []) none =
      transcribeAudio ((fun _ _ _ => .ok "hi") : Api) "f.mp3" none none ∧
    transcribeAudio ((fun _ _ _ => .ok "hi") : Api) "f.mp3" (some []) none =
      .ok { transcript := "hi", chunksProcessed := 1 } :=
  ⟨(transcribeAudio_emptyChunkList ((fun _ _ _ => .ok "hi") : Api) "f.mp3" none).1,
   (transcribeAudio_emptyChunkList ((fun _ _ _ => .ok "hi") : Api) "f.mp3" none).2 "hi" rfl⟩

lemma nextRollingPrompt_length_le (t : String) :
    (nextRollingPrompt t).length ≤ ROLLING_PROMPT_LENGTH := by
  by_cases h : t.length > ROLLING_PROMPT_LENGTH
  · unfold nextRollingPrompt
    rw [if_pos h, string_length_drop]
    omega
  · unfold nextRollingPrompt
    rw [if_neg h]
    omega

lemma transcribeChunksGo_prompts_le (api : Api) :
    ∀ (chunks : List AudioChunk) (rp : String),
      rp.length ≤ ROLLING_PROMPT_LENGTH →
      ∀ q ∈ (transcribeChunksGo api chunks rp).1, ∀ s, q = some s →
        s.length ≤ ROLLING_PROMPT_LENGTH
  | [], _, _ => by
    intro q hq
    simp [transcribeChunksGo] at hq
  | chunk :: rest, rp, hrp => by
    intro q hq s hs
    have hpr : ∀ s2, promptOf rp = some s2 → s2.length ≤ ROLLING_PROMPT_LENGTH := by
      intro s2 h2
      unfold promptOf at h2
      split at h2
      · exact absurd h2 (by simp)
      · cases h2
        exact hrp
    cases htr : transcribeAudioFile api chunk.path (promptOf rp) with
    | error e =>
      rw [transcribeChunksGo_cons_error htr] at hq
      simp only [List.mem_singleton] at hq
      subst hq
      exact hpr s hs
    | ok t =>
      rw [transcribeChunksGo_cons_ok htr] at hq
      simp only [List.mem_cons] at hq
      rcases hq with hq | hq
      · subst hq
        exact hpr s hs
      · exact transcribeChunksGo_prompts_le api rest (nextRollingPrompt t)
          (nextRollingPrompt_length_le t) q hq s hs

/-- C9 counterexample: `transcribeChunks` neither truncates nor rejects an
over-long initial hint — a 1501-character initial hint is passed verbatim as
the prompt of chunk 0's request, so a prompt longer than
`ROLLING_PROMPT_LENGTH = 1500` characters goes out. -/
theorem chunkPrompts_overlong_initial_hint :
    ∃ q ∈ chunkPrompts ((fun _ _ _ => .ok "") : Api)
        [{ path := "a", index := 0, duration := 5 }]
        (String.mk (List.replicate 1501 'a')),
      ∃ s, q = some s ∧ ROLLING_PROMPT_LENGTH < s.length := by
  have hlen : (String.mk (List.replicate 1501 'a')).length = 1501 := by
    show (List.replicate 1501 'a').length = 1501
    rw [List.length_replicate]
  have hne : String.mk (List.replicate 1501 'a') ≠ "" := by
    apply string_ne_empty_of_length_pos
    rw [hlen]
    decide
  have htr : transcribeAudioFile ((fun _ _ _ => .ok "") : Api)
      ({ path := "a", index := 0, duration := 5 } : AudioChunk).path
      (promptOf (String.mk (List.replicate 1501 'a'))) = .ok "" := rfl
  refine ⟨some (String.mk (List.replicate 1501 'a')), ?_,
    String.mk (List.replicate 1501 'a'), rfl, ?_⟩
  · unfold chunkPrompts
    rw [transcribeChunksGo_cons_ok htr]
    simp [promptOf, hne]
  · rw [hlen]
    decide

/-- C9 (amended): for every chunk list and every initial hint of length at
most `ROLLING_PROMPT_LENGTH = 1500`, every prompt passed with an outbound
chunk request — including chunk 0's, which receives the initial hint — is at
most 1500 characters long. -/
theorem chunkPrompts_bounded (api : Api) (chunks : List AudioChunk) (initialPrompt : String)
    (hinit : initialPrompt.length ≤ ROLLING_PROMPT_LENGTH) :
    ∀ q ∈ chunkPrompts api chunks initialPrompt, ∀ s, q = some s →
      s.length ≤ ROLLING_PROMPT_LENGTH :=
  transcribeChunksGo_prompts_le api chunks initialPrompt hinit

/-- Witness for C9 (amended): initial hint "hi" is within the bound and the
prompt it induces on the single request is within the bound too. -/
theorem chunkPrompts_bounded_witness :
    ("hi" : String).length ≤ ROLLING_PROMPT_LENGTH ∧
    (∀ s, (some "hi" : Option String) = some s → s.length ≤ ROLLING_PROMPT_LENGTH) := by
  constructor
  · decide
  · exact chunkPrompts_bounded ((fun _ _ _ => .ok "ok") : Api)
      [{ path := "a", index := 0, duration := 5 }] "hi" (by decide) (some "hi")
      (by decide)

end Transcribe
